import Mathlib

/-!
Verification of the CloudSniper repository's development-proxy configuration
(`src/vite.config.ts`) against its natural-language specification.

The only first-party source is the Vite configuration file, whose single
piece of behavior is the dev-server proxy rule under the key `'/api'`:

  '/api': {
    target: 'https://tczswboifjsccnvhzq2vng2xm40kmrfb.lambda-url.ap-south-1.on.aws',
    changeOrigin: true,
    rewrite: (path) => path.replace(/^\/api/, ''),
    secure: true,
  }

The `rewrite` function is embedded directly from the source.  The proxy
middleware itself (matching, Host rewriting, TLS validation, forwarding) is
Vite's and is not part of this repository's source tree, so those parts are
modelled from the specification's description of their contract; each such
definition is marked `Modelled from the spec:` in its doc comment.
-/

namespace CloudSniper

/-- The path-prefix key of the proxy rule in `vite.config.ts` (`'/api'`). -/
def prefixKey : String := "/api"

/-- The configured upstream origin (`target` field of the rule). -/
def targetOrigin : String :=
  "https://tczswboifjsccnvhzq2vng2xm40kmrfb.lambda-url.ap-south-1.on.aws"

/-- Embedding of the rule's rewrite function,
`rewrite: (path) => path.replace(/^\/api/, '')`.
The JavaScript regex `/^\/api/` (no `g` flag) matches the literal string
`/api` only when it occurs at position 0, and `String.prototype.replace`
replaces that single match with the empty string; any string not starting
with `/api` is returned unchanged. -/
def rewrite (path : String) : String :=
  if prefixKey.data.isPrefixOf path.data then path.drop prefixKey.length
  else path

/-- An inbound HTTP request as far as the proxy rule observes it:
a method, a path, a Host header, and a body (a list of byte values). -/
structure Request where
  method : String
  path : String
  host : String
  body : List Nat
deriving Repr, DecidableEq

/-- The route rule entity of the data model: the static fields of the
`'/api'` entry in `vite.config.ts`. -/
structure RouteRule where
  prefixKey : String
  target : String
  changeOrigin : Bool
  rewriteFn : String → String
  secure : Bool

/-- The single route rule constructed from the static configuration literal
in `vite.config.ts` (lines 12-17). -/
def theRule : RouteRule :=
  { prefixKey := CloudSniper.prefixKey
    target := targetOrigin
    changeOrigin := true
    rewriteFn := rewrite
    secure := true }

/-- Modelled from the spec: Vite's proxy middleware (not part of this
repository's source) intercepts a request exactly when its path starts with
the rule's key; the spec states "a request matches if its path starts with
`prefix`". -/
def matchesPath (r : RouteRule) (path : String) : Bool :=
  r.prefixKey.data.isPrefixOf path.data

/-- Modelled from the spec: the host component of an absolute origin URL,
i.e. the characters after the `://` scheme separator and before the next
`/`.  Used to state what `changeOrigin` sets the outbound Host header to. -/
def afterScheme : List Char → List Char
  | [] => []
  | ':' :: '/' :: '/' :: rest => rest
  | _ :: rest => afterScheme rest

/-- Host component of an origin string, via `afterScheme`. -/
def hostOf (origin : String) : String :=
  ⟨(afterScheme origin.data).takeWhile (fun c => c ≠ '/')⟩

/-- Modelled from the spec: the Host header placed on the forwarded request.
With `changeOrigin = true` the proxy layer rewrites it to the host component
of `target`; otherwise the inbound Host header is forwarded unchanged. -/
def outboundHost (r : RouteRule) (req : Request) : String :=
  if r.changeOrigin then hostOf r.target else req.host

/-- What the upstream would do for one forwarded request: whether its TLS
certificate chain validates, whether it is reachable, whether the attempt
times out, and otherwise the status code and body bytes it returns. -/
structure UpstreamBehavior where
  certValid : Bool
  reachable : Bool
  timesOut : Bool
  status : Nat
  body : List Nat
deriving Repr, DecidableEq

/-- Outcome of one forward attempt: either the upstream's response is
relayed, or a gateway-class error status is produced. -/
inductive ForwardOutcome where
  | ok (status : Nat) (body : List Nat)
  | gatewayError (status : Nat)
deriving Repr, DecidableEq

/-- Modelled from the spec: a single forward attempt.  When `secure` is true
an invalid upstream certificate fails the request (502); an unreachable
upstream yields 502; a timeout yields 504; otherwise the upstream's status
and body are relayed unchanged.  No retries, no backoff, no local
recovery. -/
def forwardOnce (r : RouteRule) (up : UpstreamBehavior) : ForwardOutcome :=
  if r.secure && !up.certValid then .gatewayError 502
  else if !up.reachable then .gatewayError 502
  else if up.timesOut then .gatewayError 504
  else .ok up.status up.body

/-- What the caller of the dev server receives for one request. -/
inductive ProxyResponse where
  | upstream (status : Nat) (body : List Nat)
  | gateway (status : Nat)
  | notProxied
deriving Repr, DecidableEq

/-- Modelled from the spec: handling one inbound request against a route
rule.  Returns the rule as it stands after handling, the response delivered
to the caller, and the number of forward attempts made.  A matching request
is forwarded exactly once through `forwardOnce`; a non-matching request is
not touched by the rule. -/
def handleRequest (r : RouteRule) (req : Request) (up : UpstreamBehavior) :
    RouteRule × ProxyResponse × Nat :=
  if matchesPath r req.path then
    match forwardOnce r up with
    | .ok st b => (r, .upstream st b, 1)
    | .gatewayError st => (r, .gateway st, 1)
  else (r, .notProxied, 0)

/-- The path the rule forwards to the upstream: the rule's rewrite function
applied to the inbound path. -/
def forwardedPath (r : RouteRule) (path : String) : String :=
  r.rewriteFn path

theorem prefixKey_length : prefixKey.length = 4 := rfl

theorem rewrite_of_isPrefixOf {p : String}
    (h : prefixKey.data.isPrefixOf p.data = true) : rewrite p = p.drop 4 := by
  rw [rewrite, if_pos h, prefixKey_length]

theorem rewrite_of_not_isPrefixOf {p : String}
    (h : prefixKey.data.isPrefixOf p.data = false) : rewrite p = p := by
  rw [rewrite, if_neg (by simp [h])]

theorem prefixKey_append_rewrite {p : String}
    (h : prefixKey.data.isPrefixOf p.data = true) :
    prefixKey ++ rewrite p = p := by
  obtain ⟨u, hu⟩ := List.isPrefixOf_iff_prefix.mp h
  apply String.ext
  rw [String.data_append, rewrite_of_isPrefixOf h, String.data_drop, ← hu]
  rfl

/-- C1: for every path that starts with the configured prefix `/api`, the
rewrite removes that leading prefix exactly once and alters no other
characters (prepending the prefix to the output reconstructs the input
exactly); in particular `rewrite "/api/scan" = "/scan"` and
`rewrite "/api" = ""`. -/
theorem rewrite_strips_configured_prefix :
    (∀ p : String, prefixKey.data.isPrefixOf p.data = true →
      prefixKey ++ rewrite p = p)
    ∧ rewrite "/api/scan" = "/scan" ∧ rewrite "/api" = "" :=
  ⟨fun _ h => prefixKey_append_rewrite h, by decide, by decide⟩

/-- Witness for C1 at the concrete input `/api/scan`. -/
theorem rewrite_strips_configured_prefix_witness :
    prefixKey.data.isPrefixOf "/api/scan".data = true ∧
      prefixKey ++ rewrite "/api/scan" = "/api/scan" :=
  ⟨by decide, rewrite_strips_configured_prefix.1 "/api/scan" (by decide)⟩

/-- C2: for every path that does not start with the configured prefix
`/api`, the rule's match predicate returns false (the request is not
intercepted) and the rewrite function returns the path unchanged. -/
theorem nonmatching_paths_pass_through :
    ∀ p : String, prefixKey.data.isPrefixOf p.data = false →
      matchesPath theRule p = false ∧ rewrite p = p := by
  intro p h
  refine ⟨?_, rewrite_of_not_isPrefixOf h⟩
  rw [matchesPath]
  exact h

/-- Witness for C2 at the concrete input `/other`. -/
theorem nonmatching_paths_pass_through_witness :
    prefixKey.data.isPrefixOf "/other".data = false ∧
      (matchesPath theRule "/other" = false ∧ rewrite "/other" = "/other") :=
  ⟨by decide, nonmatching_paths_pass_through "/other" (by decide)⟩

/-- C3: the rewrite is a pure, deterministic string transform: its output
depends only on the input string, so two applications to the same input
yield the same output.  The embedding `rewrite` takes no state other than
its string argument, matching the source closure, which captures nothing. -/
theorem rewrite_deterministic :
    ∀ p₁ p₂ : String, p₁ = p₂ → rewrite p₁ = rewrite p₂ := by
  intro p₁ p₂ h
  rw [h]

/-- Witness for C3: two applications at the concrete input `/api/scan`. -/
theorem rewrite_deterministic_witness :
    rewrite "/api/scan" = rewrite "/api/scan" :=
  rewrite_deterministic "/api/scan" "/api/scan" rfl

/-- C4: with `changeOrigin = true` in the rule, the outbound Host header of
every forwarded request equals the host component of the configured target
origin, and two inbound requests differing only in their Host header (in
fact, any two inbound requests) produce the same outbound Host. -/
theorem changeOrigin_fixes_outbound_host :
    theRule.changeOrigin = true
    ∧ hostOf theRule.target =
        "tczswboifjsccnvhzq2vng2xm40kmrfb.lambda-url.ap-south-1.on.aws"
    ∧ (∀ req₁ req₂ : Request,
        outboundHost theRule req₁ = hostOf theRule.target
        ∧ outboundHost theRule req₁ = outboundHost theRule req₂) := by
  refine ⟨rfl, by decide, fun req₁ req₂ => ⟨rfl, rfl⟩⟩

/-- C5: with `secure = true` in the rule, a matched request forwarded to an
upstream presenting an invalid TLS certificate fails with a gateway error
and never completes as an upstream response: validation is not silently
downgraded. -/
theorem secure_rejects_invalid_cert :
    theRule.secure = true
    ∧ ∀ up : UpstreamBehavior, up.certValid = false →
        forwardOnce theRule up = .gatewayError 502
        ∧ ∀ st b, forwardOnce theRule up ≠ .ok st b := by
  refine ⟨rfl, fun up h => ?_⟩
  have hfw : forwardOnce theRule up = .gatewayError 502 := by
    rw [forwardOnce, if_pos]
    rw [h]
    rfl
  exact ⟨hfw, fun st b hcontra => by rw [hfw] at hcontra; exact ForwardOutcome.noConfusion hcontra⟩

/-- Witness for C5: an upstream with an invalid certificate but otherwise
healthy is rejected. -/
theorem secure_rejects_invalid_cert_witness :
    (UpstreamBehavior.mk false true false 200 [1, 2]).certValid = false ∧
      (forwardOnce theRule (UpstreamBehavior.mk false true false 200 [1, 2]) =
          .gatewayError 502
        ∧ ∀ st b,
            forwardOnce theRule (UpstreamBehavior.mk false true false 200 [1, 2]) ≠
              .ok st b) :=
  ⟨rfl, secure_rejects_invalid_cert.2 (UpstreamBehavior.mk false true false 200 [1, 2]) rfl⟩

/-- C6: a matched request whose forwarding fails at the transport level
(unreachable upstream, timeout, or TLS failure) yields a 502 or 504
gateway-error response to the caller, produced after exactly one forward
attempt. -/
theorem transport_failure_single_attempt_gateway_error :
    ∀ (req : Request) (up : UpstreamBehavior),
      matchesPath theRule req.path = true →
      (up.reachable = false ∨ up.timesOut = true ∨ up.certValid = false) →
      ∃ c : Nat, (c = 502 ∨ c = 504)
        ∧ (handleRequest theRule req up).2.1 = .gateway c
        ∧ (handleRequest theRule req up).2.2 = 1 := by
  intro req up hm hfail
  have hfw : forwardOnce theRule up = .gatewayError 502
      ∨ forwardOnce theRule up = .gatewayError 504 := by
    obtain ⟨cv, rch, tmo, st, bd⟩ := up
    cases cv <;> cases rch <;> cases tmo <;> simp_all [forwardOnce, theRule]
  rw [handleRequest, if_pos hm]
  rcases hfw with h | h
  · exact ⟨502, Or.inl rfl, by rw [h], by rw [h]⟩
  · exact ⟨504, Or.inr rfl, by rw [h], by rw [h]⟩

/-- Witness for C6: a matched request to an unreachable upstream. -/
theorem transport_failure_single_attempt_gateway_error_witness :
    matchesPath theRule (Request.mk "GET" "/api/scan" "localhost" []).path = true ∧
      ((UpstreamBehavior.mk true false false 200 []).reachable = false ∨
        (UpstreamBehavior.mk true false false 200 []).timesOut = true ∨
        (UpstreamBehavior.mk true false false 200 []).certValid = false) ∧
      ∃ c : Nat, (c = 502 ∨ c = 504)
        ∧ (handleRequest theRule (Request.mk "GET" "/api/scan" "localhost" [])
            (UpstreamBehavior.mk true false false 200 [])).2.1 = .gateway c
        ∧ (handleRequest theRule (Request.mk "GET" "/api/scan" "localhost" [])
            (UpstreamBehavior.mk true false false 200 [])).2.2 = 1 :=
  ⟨by decide, Or.inl rfl,
    transport_failure_single_attempt_gateway_error
      (Request.mk "GET" "/api/scan" "localhost" [])
      (UpstreamBehavior.mk true false false 200 []) (by decide) (Or.inl rfl)⟩

/-- C7: when a matched request's upstream returns HTTP 200 with a body, the
caller receives the identical status code and the identical body bytes; the
passthrough is opaque and places no constraint on the body's contents. -/
theorem ok_response_passthrough :
    ∀ (req : Request) (up : UpstreamBehavior),
      matchesPath theRule req.path = true →
      up.certValid = true → up.reachable = true → up.timesOut = false →
      up.status = 200 →
      (handleRequest theRule req up).2.1 = .upstream 200 up.body := by
  intro req up hm hc hr ht hs
  have hfw : forwardOnce theRule up = .ok 200 up.body := by
    rw [forwardOnce, if_neg, if_neg, if_neg, hs]
    · rw [ht]; simp
    · rw [hr]; simp
    · rw [hc]; simp
  rw [handleRequest, if_pos hm, hfw]

/-- Witness for C7: a healthy upstream returning 200 with body bytes
`[123, 125]` is relayed byte-for-byte. -/
theorem ok_response_passthrough_witness :
    matchesPath theRule (Request.mk "POST" "/api/scan" "localhost" [7]).path = true ∧
      (handleRequest theRule (Request.mk "POST" "/api/scan" "localhost" [7])
        (UpstreamBehavior.mk true true false 200 [123, 125])).2.1 =
        .upstream 200 [123, 125] :=
  ⟨by decide,
    ok_response_passthrough (Request.mk "POST" "/api/scan" "localhost" [7])
      (UpstreamBehavior.mk true true false 200 [123, 125])
      (by decide) rfl rfl rfl rfl⟩

/-- C8: the route rule is exactly the static configuration literal of
`vite.config.ts` (prefix `/api`, the lambda-url target, `changeOrigin =
true`, the prefix-stripping rewrite, `secure = true`), and no operation of
the proxy changes it: handling any request returns the rule unchanged, so it
holds no per-request state. -/
theorem route_rule_static_and_immutable :
    theRule.prefixKey = "/api"
    ∧ theRule.target =
        "https://tczswboifjsccnvhzq2vng2xm40kmrfb.lambda-url.ap-south-1.on.aws"
    ∧ theRule.changeOrigin = true
    ∧ theRule.rewriteFn = rewrite
    ∧ theRule.secure = true
    ∧ ∀ (r : RouteRule) (req : Request) (up : UpstreamBehavior),
        (handleRequest r req up).1 = r := by
  refine ⟨rfl, rfl, rfl, rfl, rfl, fun r req up => ?_⟩
  rw [handleRequest]
  by_cases h : matchesPath r req.path
  · rw [if_pos h]
    cases forwardOnce r up <;> rfl
  · rw [if_neg h]

/-- C9: for every string `p`, `rewrite p` is a suffix of `p`, obtained by
dropping either nothing (when `p` does not start with `/api`) or exactly the
four leading characters (when it does); `rewrite` is total, never lengthens
its input, and leaves an occurrence of `/api` at any position other than 0
untouched, e.g. in `/foo/api/bar`. -/
theorem rewrite_suffix_total :
    (∀ p : String,
      (rewrite p).data <:+ p.data
      ∧ (prefixKey.data.isPrefixOf p.data = true → rewrite p = p.drop 4)
      ∧ (prefixKey.data.isPrefixOf p.data = false → rewrite p = p)
      ∧ (rewrite p).length ≤ p.length)
    ∧ rewrite "/foo/api/bar" = "/foo/api/bar" := by
  refine ⟨fun p => ?_, by decide⟩
  have hsuf : (rewrite p).data <:+ p.data := by
    cases h : prefixKey.data.isPrefixOf p.data
    · rw [rewrite_of_not_isPrefixOf h]
    · rw [rewrite_of_isPrefixOf h, String.data_drop]
      exact List.drop_suffix 4 p.data
  exact ⟨hsuf, fun h => rewrite_of_isPrefixOf h,
    fun h => rewrite_of_not_isPrefixOf h, hsuf.length_le⟩

/-- Witness for C9 at the concrete inputs `/api/x` (prefix dropped) and
`/x` (unchanged). -/
theorem rewrite_suffix_total_witness :
    prefixKey.data.isPrefixOf "/api/x".data = true
    ∧ rewrite "/api/x" = "/api/x".drop 4
    ∧ prefixKey.data.isPrefixOf "/x".data = false
    ∧ rewrite "/x" = "/x" :=
  ⟨by decide, (rewrite_suffix_total.1 "/api/x").2.1 (by decide),
    by decide, (rewrite_suffix_total.1 "/x").2.2.1 (by decide)⟩

/-- C10: matching is a raw string-prefix test, not a path-segment test: the
path `/apifoo`, in which `/api` is not followed by `/` or end of string,
matches the rule and is rewritten to `foo`, a path never under the `/api/`
segment. -/
theorem raw_prefix_match_apifoo :
    matchesPath theRule "/apifoo" = true
    ∧ rewrite "/apifoo" = "foo"
    ∧ "/api/".data.isPrefixOf "/apifoo".data = false := by
  refine ⟨by decide, by decide, by decide⟩

end CloudSniper
